import Mathlib

/-!
Shallow embedding of the lite-cron repository's orchestration core:
the cron-file generator (src/make_cron.py), the env-file generator
(src/make_env.py), the task wrapper (src/task_wrapper.py), the
notification dispatcher (src/notify.py) and the management CLI's
list/parse_cron helpers (manage.py).

Python dictionaries read with `.get(key, default)` are modelled as
structures with `Option` fields plus getter functions applying the
same defaults.  File writes are modelled as the list of strings passed
to `f.write(...)`, in order; the produced file content is the
concatenation of that list.  Filesystem existence checks are modelled
by membership in a list of existing paths.

Python's string primitives are re-implemented structurally over
character lists so that every definition evaluates by kernel
reduction.
-/

namespace LiteCron

/-- Python substring test `needle in hay` on strings. -/
def containsSub (needle hay : String) : Bool :=
  decide (needle.toList <:+: hay.toList)

/-- Python `s.startswith(pre)`. -/
def pyStartsWith (s pre : String) : Bool :=
  decide (pre.toList <+: s.toList)

/-- Python `s[n:]` for a nonnegative index `n` (character count). -/
def pyDropStr (s : String) (n : Nat) : String :=
  String.mk (s.toList.drop n)

/-- Helper for Python `str.split()`: cut a character list at whitespace
runs, dropping empty pieces; `acc` holds the current piece reversed. -/
def splitWsAux : List Char → List Char → List (List Char)
  | [], acc => if acc.isEmpty then [] else [acc.reverse]
  | c :: cs, acc =>
    if c.isWhitespace then
      (if acc.isEmpty then splitWsAux cs [] else acc.reverse :: splitWsAux cs [])
    else splitWsAux cs (c :: acc)

/-- Python `s.split()` with no arguments: split on whitespace runs,
with no empty pieces. -/
def pySplitWs (s : String) : List String :=
  (splitWsAux s.toList []).map String.mk

/-- Python `sep.join(pieces)`. -/
def pyJoin (sep : String) : List String → String
  | [] => ""
  | [a] => a
  | a :: rest => a ++ sep ++ pyJoin sep rest

/-- Concatenation of an ordered list of `f.write(...)` chunks into the
resulting file content. -/
def joinChunks : List String → String
  | [] => ""
  | c :: cs => c ++ joinChunks cs

/-- Python `hay.replace(pat, rep)` for a single-character pattern
(the only form the source uses: `value.replace('"', '\\"')`). -/
def pyReplaceChar (hay : String) (pat : Char) (rep : String) : String :=
  String.mk (hay.toList.flatMap (fun c => if c = pat then rep.toList else [c]))

/-- A task entry of config.yml.  Every field is optional, as in the
underlying YAML mapping; accessors apply the source's defaults. -/
structure Task where
  name : Option String := none
  schedule : Option String := none
  script : Option String := none
  enabled : Option Bool := none
  env : Option (List (String × String)) := none
  description : Option String := none
deriving Repr, DecidableEq

/-- Top-level config.yml document (the parts the orchestration reads). -/
structure Config where
  tasks : Option (List Task) := none
  global_env : Option (List (String × String)) := none
deriving Repr, DecidableEq

/-- `task.get('enabled', True)` (truthiness of the stored value). -/
def Task.enabledD (t : Task) : Bool := t.enabled.getD true

/-- `task.get('script', '')`. -/
def Task.scriptD (t : Task) : String := t.script.getD ""

/-- manage.py parse_cron: render a 5-field cron expression as a
human-readable Chinese description; non-5-field input is returned
unchanged, and the day/month fallback prints the raw expression. -/
def parse_cron (cron_expr : String) : String :=
  match pySplitWs cron_expr with
  | [minute, hour, day, month, weekday] =>
    let d1 : String :=
      if minute = "*" then "每分钟"
      else if pyStartsWith minute "*/" then "每" ++ pyDropStr minute 2 ++ "分钟"
      else minute ++ "分"
    let d2 : List String :=
      if hour = "*" then
        (if containsSub "每" d1 then ["每小时"] else [])
      else if pyStartsWith hour "*/" then ["每" ++ pyDropStr hour 2 ++ "小时"]
      else [hour ++ "时"]
    let weekdayNames : List (String × String) :=
      [("0", "周日"), ("1", "周一"), ("2", "周二"), ("3", "周三"),
       ("4", "周四"), ("5", "周五"), ("6", "周六"), ("7", "周日")]
    let d3 : List String :=
      if day ≠ "*" ∨ month ≠ "*" ∨ weekday ≠ "*" then
        (if day = "*" ∧ month = "*" ∧ weekday = "*" then []
         else if weekday ≠ "*" then
           (match (weekdayNames.lookup weekday) with
            | some w => ["每" ++ w]
            | none => [])
         else ["日期: " ++ cron_expr])
      else []
    let desc : List String := d1 :: (d2 ++ d3)
    if desc.length ≤ 3 then pyJoin " " desc else cron_expr
  | _ => cron_expr

/-- manage.py cmd_list: `tasks = config.get("tasks", [])`, the reported
total task count is `len(tasks)`. -/
def cmd_list_task_count (cfg : Config) : Nat :=
  (cfg.tasks.getD []).length

/-- manage.py cmd_list: `enabled_count = sum(1 for t in tasks if
t.get("enabled", True))`. -/
def cmd_list_enabled_count (cfg : Config) : Nat :=
  ((cfg.tasks.getD []).filter (fun t => t.enabledD)).length

/-- manage.py cmd_list: the per-task human-readable schedule line.
`readable = parse_cron(schedule)` is printed only when it differs from
the raw schedule string (schedule display defaults to "无调度"). -/
def cmd_list_schedule_desc (t : Task) : Option String :=
  let schedule := t.schedule.getD "无调度"
  let readable := parse_cron schedule
  if readable ≠ schedule then some readable else none

/-! ## Env-file generator (src/make_env.py) -/

/-- make_env.py: one `export KEY="value"` line; the value goes through
`str(value).replace('"', '\\"')` (a one-character pattern). -/
def env_export_line (key value : String) : String :=
  "export " ++ key ++ "=\"" ++ pyReplaceChar value '"' "\\\"" ++ "\"\n"

/-- make_env.py generate_env, per-task section: tasks with a missing or
empty name are skipped; otherwise a status comment, the prefixed
export lines (when an `env` mapping is present) and a blank line. -/
def generate_env_task_chunk (t : Task) : List String :=
  let task_name := t.name.getD ""
  if task_name = "" then []
  else
    ["# 任务: " ++ task_name ++ " (" ++ (if t.enabledD then "启用" else "禁用") ++ ")\n"]
    ++ (match t.env with
        | none => []
        | some pairs =>
          pairs.map (fun kv => env_export_line (task_name ++ "_" ++ kv.1) kv.2))
    ++ ["\n"]

/-- make_env.py generate_env: the ordered list of strings written to the
env file (opened with mode 'w').  `now_str` is the formatted
generation time `datetime.now().strftime(...)`. -/
def generate_env (cfg : Config) (now_str : String) : List String :=
  ["# 自动生成的环境变量文件\n",
   "# 生成时间: " ++ now_str ++ "\n",
   "# 不要手动编辑此文件\n\n"]
  ++ (match cfg.global_env with
      | none => []
      | some genv =>
        ["# 全局环境变量\n"] ++ genv.map (fun kv => env_export_line kv.1 kv.2) ++ ["\n"])
  ++ (match cfg.tasks with
      | none => []
      | some [] => []
      | some tasks => ["# 任务专属环境变量\n"] ++ tasks.flatMap generate_env_task_chunk)

/-- The env file's content after a run of generate_env: the file is
opened with mode 'w', so any previous content is discarded. -/
def run_generate_env_file (_prev : String) (cfg : Config) (now_str : String) : String :=
  joinChunks (generate_env cfg now_str)

/-! ## Cron-file generator (src/make_cron.py) -/

/-- make_cron.py: the executable crontab line for one task.  When
/app/task_wrapper.py exists the script runs through the wrapper,
otherwise it is executed directly.  `\x27` is the single-quote
character wrapped around the name and script arguments. -/
def cron_line (wrapper_exists : Bool) (schedule task_name script : String) : String :=
  if wrapper_exists then
    schedule ++ " cd /app && . /app/.env 2>/dev/null; python3 /app/task_wrapper.py \x27"
      ++ task_name ++ "\x27 \x27" ++ script ++ "\x27 >> /proc/1/fd/1 2>&1\n"
  else
    schedule ++ " cd /app && . /app/.env 2>/dev/null; python3 " ++ script
      ++ " >> /proc/1/fd/1 2>&1\n"

/-- make_cron.py generate_cron, loop body for one task: disabled tasks,
tasks with an empty script path and tasks whose script does not exist
on the filesystem `fs` contribute nothing; a processed task
contributes its comment line, its cron line and a blank line. -/
def cron_task_chunk (fs : List String) (wrapper_exists : Bool) (t : Task) : List String :=
  if ¬ t.enabledD then []
  else
    let task_name := t.name.getD "未命名任务"
    let schedule := t.schedule.getD "0 * * * *"
    let script := t.scriptD
    if script = "" then []
    else if script ∉ fs then []
    else ["# 任务: " ++ task_name ++ "\n",
          cron_line wrapper_exists schedule task_name script, "\n"]

/-- make_cron.py generate_cron: the ordered list of strings appended to
the crontab file, and the boolean result.  With no (or empty) task
list only the header is written and the function returns True early;
otherwise the per-task chunks are followed by a final blank line. -/
def generate_cron (cfg : Config) (fs : List String) (wrapper_exists : Bool) :
    List String × Bool :=
  match cfg.tasks with
  | none => (["# 定时任务定义\n"], true)
  | some [] => (["# 定时任务定义\n"], true)
  | some tasks =>
    (["# 定时任务定义\n"] ++ tasks.flatMap (cron_task_chunk fs wrapper_exists) ++ ["\n"],
     true)

/-- The crontab file's content after a run of generate_cron: the file is
opened with mode 'a', so the written strings are appended after the
previous content. -/
def run_generate_cron_file (prev : String) (cfg : Config) (fs : List String)
    (wrapper_exists : Bool) : String :=
  prev ++ joinChunks (generate_cron cfg fs wrapper_exists).1

/-! ## Task wrapper (src/task_wrapper.py) -/

/-- task_wrapper.py setup_task_env: collect every environment variable
whose key starts with `{task_name}_`, stripping that prefix from the
key.  `os.environ` is modelled as an association list in iteration
order. -/
def setup_task_env (task_name : String) (environ : List (String × String)) :
    List (String × String) :=
  let pre := task_name ++ "_"
  environ.filterMap (fun kv =>
    if pyStartsWith kv.1 pre then some (pyDropStr kv.1 pre.length, kv.2) else none)

/-- Python list slice `l[k:]` with a possibly negative start index. -/
def pySliceFrom (k : Int) (l : List String) : List String :=
  if 0 ≤ k then l.drop k.toNat else l.drop (l.length - (-k).toNat)

/-- One recorded invocation of `python3 /app/notify.py <title> <content>
--log-content <log_content> --log-lines <log_lines>`. -/
structure NotifyCall where
  title : String
  content : String
  log_content : String
  log_lines : Int
deriving Repr, DecidableEq

/-- task_wrapper.py main: the `--log-content` argument,
`'\n'.join(output_lines[-log_lines:]) if output_lines else "无输出"`. -/
def wrapper_task_log_content (output_lines : List String) (log_lines : Int) : String :=
  if output_lines.isEmpty then "无输出"
  else pyJoin "\n" (pySliceFrom (-log_lines) output_lines)

/-- task_wrapper.py main, notification block: inside `try`, the line
count is read from LOG_LINES (default 15; `log_lines_env` models a
well-formed integer value, a malformed one raises from `int()` and is
subsumed by `notify_raises`) and notify.py is invoked once; any
exception makes the block yield nothing. -/
def wrapper_notify_block (task_name : String) (output_lines : List String)
    (log_lines_env : Option Int) (notify_raises : Bool) :
    Except String (List NotifyCall) :=
  let log_lines := log_lines_env.getD 15
  if notify_raises then Except.error "notify invocation raised"
  else Except.ok
    [⟨task_name ++ " 执行失败", "详情见日志",
      wrapper_task_log_content output_lines log_lines, log_lines⟩]

/-- task_wrapper.py main, from the child's exit onward: returns the
wrapper's own exit code and the notify.py invocations it performed.
The notifier runs only when the child failed and /app/notify.py
exists; an exception inside that block is swallowed (`except
Exception: pass`) and the wrapper still exits with the child's code. -/
def wrapper_main (task_name : String) (child_exit : Int) (output_lines : List String)
    (log_lines_env : Option Int) (notify_exists : Bool) (notify_raises : Bool) :
    Int × List NotifyCall :=
  if child_exit ≠ 0 ∧ notify_exists then
    match wrapper_notify_block task_name output_lines log_lines_env notify_raises with
    | Except.ok calls => (child_exit, calls)
    | Except.error _ => (child_exit, [])
  else (child_exit, [])

/-! ## Notification dispatcher (src/notify.py) -/

/-- The flattened notification configuration `_load_config` builds from
config.yml's `notify` section, with its defaults. -/
structure NotifyConfig where
  on_failure : Bool := true
  on_success : Bool := false
  webhook_url : String := ""
  webhook_body : String := ""
  webhook_headers : String := ""
  webhook_method : String := "POST"
  webhook_content_type : String := "application/json"
  ntfy_url : String := ""
  ntfy_topic : String := ""
  ntfy_priority : String := "3"
  ntfy_token : String := ""
  ntfy_username : String := ""
  ntfy_password : String := ""
  ntfy_actions : String := ""
  ntfy_headers : String := ""
deriving Repr, DecidableEq

/-- notify.py _check_webhook_config: `bool(webhook_url and webhook_method)`. -/
def check_webhook_config (c : NotifyConfig) : Bool :=
  c.webhook_url ≠ "" && c.webhook_method ≠ ""

/-- notify.py _check_ntfy_config: `bool(ntfy_url and ntfy_topic)`. -/
def check_ntfy_config (c : NotifyConfig) : Bool :=
  c.ntfy_url ≠ "" && c.ntfy_topic ≠ ""

/-- The two outbound channels notify() can start a thread for. -/
inductive Channel
  | webhook
  | ntfy
deriving Repr, DecidableEq

/-- notify.py notify(): a title is a failure title when it contains
失败, 错误 or 异常. -/
def is_failure_title (title : String) : Bool :=
  containsSub "失败" title || containsSub "错误" title || containsSub "异常" title

/-- notify.py notify(): which channels are contacted.  Empty content
returns immediately; without `force` the inferred outcome is checked
against on_failure / on_success; then one thread per configured
channel is started (webhook first, then ntfy) and joined. -/
def notify (cfg : NotifyConfig) (title content : String) (force : Bool) :
    List Channel :=
  if content = "" then []
  else
    let skip : Bool :=
      if force then false
      else if is_failure_title title && !cfg.on_failure then true
      else if !is_failure_title title && !cfg.on_success then true
      else false
    if skip then []
    else
      (if check_webhook_config cfg then [Channel.webhook] else [])
        ++ (if check_ntfy_config cfg then [Channel.ntfy] else [])

/-! ## Concrete configurations used in the scenario claims -/

/-- The task of the spec's list scenario:
`{name: "demo", schedule: "0 * * * *", script: "x.py", enabled: true}`. -/
def demoTask : Task :=
  { name := some "demo", schedule := some "0 * * * *",
    script := some "x.py", enabled := some true }

/-- The config of the spec's list scenario: one task plus
`global_env: {A: "1"}`. -/
def demoCfg : Config :=
  { tasks := some [demoTask], global_env := some [("A", "1")] }

/-- A one-task config whose task `demo` carries `env: {FOO: bar}`. -/
def envDemoCfg : Config :=
  { tasks := some [{ name := some "demo", env := some [("FOO", "bar")] }] }

/-- A disabled variant of the scenario task. -/
def disabledDemoTask : Task :=
  { name := some "demo", schedule := some "0 * * * *",
    script := some "x.py", enabled := some false }

/-- An enabled task whose script path is missing from the filesystem. -/
def ghostScriptTask : Task :=
  { name := some "ghost", schedule := some "1 2 3 4 5",
    script := some "missing.py", enabled := some true }

/-! ## Theorems about the claims -/

/-- C1, counterexample: the claim asserts `parse_cron "0 * * * *" =
"每小时"`, but the source renders the minute field `0` as "0分" and
then skips the "每小时" branch because "每" does not occur in "0分";
the list command therefore renders "0分" for the scenario schedule,
not "每小时". -/
theorem C1_list_counterexample :
    parse_cron "0 * * * *" = "0分" ∧ parse_cron "0 * * * *" ≠ "每小时" := by
  constructor <;> decide

/-- C1, amended: for the scenario config (one enabled task `demo` with
schedule "0 * * * *", script "x.py", and global_env {A: "1"}), the
list command reports task count 1 and enabled count 1, and renders the
schedule's human-readable description as "0分" (not "每小时"). -/
theorem C1_list_scenario_amended :
    cmd_list_task_count demoCfg = 1 ∧
    cmd_list_enabled_count demoCfg = 1 ∧
    cmd_list_schedule_desc demoTask = some "0分" ∧
    parse_cron "0 * * * *" = "0分" := by
  refine ⟨by decide, by decide, by decide, by decide⟩

/-- C2: round-trip of per-task environment variables.  For task `demo`
with env {FOO: bar}, generate_env writes the line
`export demo_FOO="bar"` (exhibited inside the full generated chunk
list), and setup_task_env "demo" on an environment holding
demo_FOO=bar yields exactly the unprefixed binding FOO=bar, with no
demo_FOO key left. -/
theorem C2_env_round_trip :
    ∀ now_str : String,
      generate_env envDemoCfg now_str =
        ["# 自动生成的环境变量文件\n",
         "# 生成时间: " ++ now_str ++ "\n",
         "# 不要手动编辑此文件\n\n",
         "# 任务专属环境变量\n",
         "# 任务: demo (启用)\n",
         "export demo_FOO=\"bar\"\n",
         "\n"] ∧
      setup_task_env "demo" [("demo_FOO", "bar")] = [("FOO", "bar")] ∧
      (setup_task_env "demo" [("demo_FOO", "bar")]).lookup "demo_FOO" = none := by
  intro now_str
  refine ⟨rfl, by decide, by decide⟩

/-- C3: the wrapper's own exit code always equals the child's exit code,
whatever the captured output, LOG_LINES value, presence of notify.py,
or an exception raised while invoking the notifier (which the
wrapper's `except Exception: pass` swallows). -/
theorem C3_wrapper_exit_code :
    ∀ (task_name : String) (child_exit : Int) (output_lines : List String)
      (log_lines_env : Option Int) (notify_exists notify_raises : Bool),
      (wrapper_main task_name child_exit output_lines log_lines_env
        notify_exists notify_raises).1 = child_exit := by
  intro task_name child_exit output_lines log_lines_env notify_exists notify_raises
  unfold wrapper_main
  split
  · split <;> rfl
  · rfl

/-- C7: env-file generation is idempotent up to the timestamp.  The
write list of generate_env differs between two runs on the same config
only at index 1, which is exactly the generation-timestamp comment
line; erasing it yields identical output, so the file contents (the
generator truncates with mode 'w') are byte-identical except for that
line. -/
theorem C7_env_idempotent_modulo_timestamp :
    ∀ (cfg : Config) (now1 now2 : String),
      (generate_env cfg now1).eraseIdx 1 = (generate_env cfg now2).eraseIdx 1 ∧
      (generate_env cfg now1)[1]? = some ("# 生成时间: " ++ now1 ++ "\n") := by
  intro cfg now1 now2
  exact ⟨rfl, rfl⟩

/-- C9: notify() with an empty content string returns before the
outcome check and before any channel dispatch, even when force is
true: no channel is ever contacted. -/
theorem C9_empty_content_never_sends :
    ∀ (cfg : NotifyConfig) (title : String) (force : Bool),
      notify cfg title "" force = [] := by
  intro cfg title force
  unfold notify
  simp

/-- C5: a task with enabled: false contributes no line at all to the
cron file: its per-task chunk is empty, and the generated output is
exactly the header, the concatenation of the per-task chunks, and the
trailing blank line — so no executable cron line for the disabled task
is written. -/
theorem C5_disabled_task_writes_no_cron_line
    (cfg : Config) (fs : List String) (wrapper_exists : Bool)
    (tasks : List Task) (t : Task)
    (h1 : cfg.tasks = some tasks) (h2 : t ∈ tasks) (h3 : t.enabledD = false) :
    cron_task_chunk fs wrapper_exists t = [] ∧
    generate_cron cfg fs wrapper_exists =
      (["# 定时任务定义\n"] ++ tasks.flatMap (cron_task_chunk fs wrapper_exists)
        ++ ["\n"], true) := by
  refine ⟨?_, ?_⟩
  · unfold cron_task_chunk
    rw [h3]
    simp
  · cases tasks with
    | nil => cases h2
    | cons a l => simp [generate_cron, h1]

/-- C5, witness: the disabled scenario task contributes nothing even
though its script exists on disk. -/
theorem C5_disabled_task_witness :
    cron_task_chunk ["x.py"] true disabledDemoTask = [] ∧
    generate_cron { tasks := some [disabledDemoTask] } ["x.py"] true =
      (["# 定时任务定义\n"]
        ++ [disabledDemoTask].flatMap (cron_task_chunk ["x.py"] true)
        ++ ["\n"], true) :=
  C5_disabled_task_writes_no_cron_line { tasks := some [disabledDemoTask] }
    ["x.py"] true [disabledDemoTask] disabledDemoTask rfl (by decide) (by decide)

/-- C6: a task whose script field is empty, or whose script path does
not exist on the filesystem, is skipped (empty chunk); the remaining
tasks are processed unchanged (the output is still the header plus
every task's own chunk plus the trailer) and the generation still
returns True. -/
theorem C6_missing_script_skipped
    (cfg : Config) (fs : List String) (wrapper_exists : Bool)
    (tasks : List Task) (t : Task)
    (h1 : cfg.tasks = some tasks) (h2 : t ∈ tasks)
    (h3 : t.scriptD = "" ∨ t.scriptD ∉ fs) :
    cron_task_chunk fs wrapper_exists t = [] ∧
    generate_cron cfg fs wrapper_exists =
      (["# 定时任务定义\n"] ++ tasks.flatMap (cron_task_chunk fs wrapper_exists)
        ++ ["\n"], true) ∧
    (generate_cron cfg fs wrapper_exists).2 = true := by
  refine ⟨?_, ?_, ?_⟩
  · unfold cron_task_chunk
    rcases h3 with h | h
    · simp [h]
    · simp [h]
  · cases tasks with
    | nil => cases h2
    | cons a l => simp [generate_cron, h1]
  · unfold generate_cron
    cases cfg.tasks with
    | none => rfl
    | some l => cases l <;> rfl

/-- C6, witness: an enabled task whose script path is absent from the
filesystem contributes nothing, while generation still succeeds; the
scenario task on the same filesystem is processed normally. -/
theorem C6_missing_script_witness :
    cron_task_chunk ["x.py"] true ghostScriptTask = [] ∧
    generate_cron { tasks := some [demoTask, ghostScriptTask] } ["x.py"] true =
      (["# 定时任务定义\n"]
        ++ [demoTask, ghostScriptTask].flatMap (cron_task_chunk ["x.py"] true)
        ++ ["\n"], true) ∧
    (generate_cron { tasks := some [demoTask, ghostScriptTask] } ["x.py"] true).2
      = true :=
  C6_missing_script_skipped { tasks := some [demoTask, ghostScriptTask] }
    ["x.py"] true [demoTask, ghostScriptTask] ghostScriptTask rfl
    (by decide) (by decide)

/-- C8: notify()'s outcome gating.  Without force, a failure-keyword
title is dropped when on_failure is false, and a non-failure title is
dropped when on_success is false; with force the outcome check is
bypassed and dispatch proceeds to exactly the configured channels
(provided the content is nonempty, the guard claim C9 describes). -/
theorem C8_notify_gating (cfg : NotifyConfig) (title content : String) :
    (is_failure_title title = true → cfg.on_failure = false →
      notify cfg title content false = []) ∧
    (is_failure_title title = false → cfg.on_success = false →
      notify cfg title content false = []) ∧
    (content ≠ "" →
      notify cfg title content true =
        (if check_webhook_config cfg then [Channel.webhook] else [])
          ++ (if check_ntfy_config cfg then [Channel.ntfy] else [])) := by
  refine ⟨?_, ?_, ?_⟩
  · intro hf hof
    unfold notify
    by_cases hc : content = ""
    · simp [hc]
    · simp [hc, hf, hof]
  · intro hf hos
    unfold notify
    by_cases hc : content = ""
    · simp [hc]
    · simp [hc, hf, hos]
  · intro hc
    unfold notify
    simp [hc]

/-- C8, witness: with both outcome flags off, a failure title and a
success title are both skipped despite a configured webhook; with
force the same failure title reaches the webhook channel. -/
theorem C8_notify_gating_witness :
    notify { webhook_url := "u", on_failure := false, on_success := false }
      "demo 执行失败" "详情见日志" false = [] ∧
    notify { webhook_url := "u", on_failure := false, on_success := false }
      "demo 执行成功" "详情见日志" false = [] ∧
    notify { webhook_url := "u", on_failure := false, on_success := false }
      "demo 执行失败" "详情见日志" true =
      (if check_webhook_config
          { webhook_url := "u", on_failure := false, on_success := false }
        then [Channel.webhook] else [])
        ++ (if check_ntfy_config
              { webhook_url := "u", on_failure := false, on_success := false }
            then [Channel.ntfy] else []) :=
  ⟨(C8_notify_gating
      { webhook_url := "u", on_failure := false, on_success := false }
      "demo 执行失败" "详情见日志").1 (by decide) (by decide),
   (C8_notify_gating
      { webhook_url := "u", on_failure := false, on_success := false }
      "demo 执行成功" "详情见日志").2.1 (by decide) (by decide),
   (C8_notify_gating
      { webhook_url := "u", on_failure := false, on_success := false }
      "demo 执行失败" "详情见日志").2.2 (by decide)⟩

/-- C4, counterexample: with LOG_LINES=0 and a failed child that
printed two lines, the wrapper's single notifier call carries the
excerpt "a\nb", which is not the join of at most N = 0 of the last
captured output lines — Python's `output_lines[-0:]` is the whole
list, so the "at most N lines" bound of the claim fails at N = 0. -/
theorem C4_excerpt_counterexample :
    (wrapper_main "demo" 1 ["a", "b"] (some 0) true false).2 =
      [⟨"demo 执行失败", "详情见日志", "a\nb", 0⟩] ∧
    ¬ ∃ tail : List String, tail <:+ ["a", "b"] ∧ (tail.length : Int) ≤ 0 ∧
        pyJoin "\n" tail = "a\nb" := by
  constructor
  · decide
  · rintro ⟨tail, hsuf, hlen, hjoin⟩
    have h0 : tail.length = 0 := by omega
    rw [List.length_eq_zero] at h0
    subst h0
    exact absurd hjoin (by decide)

/-- C4, amended: when the child exits 0 the notifier is not invoked;
when the child exits non-zero (with /app/notify.py present and the
invocation not raising) the notifier is invoked exactly once, with
title `{task_name} 执行失败`, and — provided the line count N read
from LOG_LINES (default 15) is at least 1 — a log excerpt that is the
join of at most N of the last captured output lines ("无输出" when
there was no output).  For N ≤ 0 the excerpt instead covers all
captured lines, as the counterexample shows. -/
theorem C4_notify_once_amended (task_name : String) (lines : List String)
    (log_lines_env : Option Int) (c : Int)
    (hc : c ≠ 0) (hN : 1 ≤ log_lines_env.getD 15) :
    (wrapper_main task_name 0 lines log_lines_env true false).2 = [] ∧
    ∃ excerpt : String,
      (wrapper_main task_name c lines log_lines_env true false).2 =
        [⟨task_name ++ " 执行失败", "详情见日志", excerpt,
          log_lines_env.getD 15⟩] ∧
      (lines = [] → excerpt = "无输出") ∧
      (lines ≠ [] → ∃ tail, tail <:+ lines ∧
        (tail.length : Int) ≤ log_lines_env.getD 15 ∧
        excerpt = pyJoin "\n" tail) := by
  refine ⟨by simp [wrapper_main], ?_⟩
  refine ⟨wrapper_task_log_content lines (log_lines_env.getD 15), ?_, ?_, ?_⟩
  · simp [wrapper_main, wrapper_notify_block, hc]
  · intro h
    subst h
    rfl
  · intro hne
    refine ⟨pySliceFrom (-(log_lines_env.getD 15)) lines, ?_, ?_, ?_⟩
    · unfold pySliceFrom
      have hneg : ¬ (0 : Int) ≤ -(log_lines_env.getD 15) := by omega
      simp only [hneg, if_false]
      exact List.drop_suffix _ _
    · unfold pySliceFrom
      have hneg : ¬ (0 : Int) ≤ -(log_lines_env.getD 15) := by omega
      simp only [hneg, if_false, List.length_drop, Int.neg_neg]
      omega
    · cases lines with
      | nil => exact absurd rfl hne
      | cons a l => rfl

/-- C4, witness: child exit 1 with two captured lines and LOG_LINES=2
triggers exactly one notifier call with the failure title, while child
exit 0 triggers none. -/
theorem C4_notify_once_witness :
    (wrapper_main "demo" 0 ["a", "b"] (some 2) true false).2 = [] ∧
    ∃ excerpt : String,
      (wrapper_main "demo" 1 ["a", "b"] (some 2) true false).2 =
        [⟨"demo 执行失败", "详情见日志", excerpt, (some (2 : Int)).getD 15⟩] ∧
      ((["a", "b"] : List String) = [] → excerpt = "无输出") ∧
      ((["a", "b"] : List String) ≠ [] → ∃ tail, tail <:+ ["a", "b"] ∧
        (tail.length : Int) ≤ (some (2 : Int)).getD 15 ∧
        excerpt = pyJoin "\n" tail) :=
  C4_notify_once_amended "demo" ["a", "b"] (some 2) 1 (by decide) (by decide)

/-- C10: generate_cron appends (mode 'a') while generate_env truncates
(mode 'w').  For a config whose enabled tasks all have a nonempty,
existing script: each run preserves the previous cron-file content and
appends a fresh header-led chunk with exactly one executable entry per
enabled task, so two runs yield duplicated content rather than a
fixed point; env-file generation, in contrast, is independent of the
previous file content. -/
theorem C10_cron_append_not_idempotent
    (prev : String) (cfg : Config) (fs : List String) (wrapper_exists : Bool)
    (tasks : List Task)
    (h1 : cfg.tasks = some tasks) (h2 : tasks ≠ [])
    (h3 : ∀ t ∈ tasks, t.enabledD = true → t.scriptD ≠ "" ∧ t.scriptD ∈ fs) :
    run_generate_cron_file prev cfg fs wrapper_exists =
      prev ++ joinChunks (generate_cron cfg fs wrapper_exists).1 ∧
    run_generate_cron_file (run_generate_cron_file prev cfg fs wrapper_exists)
        cfg fs wrapper_exists =
      prev ++ (joinChunks (generate_cron cfg fs wrapper_exists).1
        ++ joinChunks (generate_cron cfg fs wrapper_exists).1) ∧
    run_generate_cron_file (run_generate_cron_file prev cfg fs wrapper_exists)
        cfg fs wrapper_exists ≠
      run_generate_cron_file prev cfg fs wrapper_exists ∧
    (∃ rest, joinChunks (generate_cron cfg fs wrapper_exists).1 =
      "# 定时任务定义\n" ++ rest) ∧
    (∀ t ∈ tasks, t.enabledD = true →
      cron_task_chunk fs wrapper_exists t =
        ["# 任务: " ++ t.name.getD "未命名任务" ++ "\n",
         cron_line wrapper_exists (t.schedule.getD "0 * * * *")
           (t.name.getD "未命名任务") t.scriptD, "\n"]) ∧
    (∀ p1 p2 now_str, run_generate_env_file p1 cfg now_str =
      run_generate_env_file p2 cfg now_str) := by
  have h4 : ∃ rest, joinChunks (generate_cron cfg fs wrapper_exists).1 =
      "# 定时任务定义\n" ++ rest := by
    cases tasks with
    | nil => exact absurd rfl h2
    | cons a l =>
      refine ⟨joinChunks ((a :: l).flatMap (cron_task_chunk fs wrapper_exists)
        ++ ["\n"]), ?_⟩
      simp only [generate_cron, h1]
      rfl
  refine ⟨rfl, ?_, ?_, h4, ?_, ?_⟩
  · simp only [run_generate_cron_file, String.append_assoc]
  · obtain ⟨rest, hA⟩ := h4
    intro heq
    have hlen := congrArg String.length heq
    simp only [run_generate_cron_file, String.length_append] at hlen
    rw [hA] at hlen
    have hhdr : ("# 定时任务定义\n" : String).length = 9 := by decide
    simp only [String.length_append, hhdr] at hlen
    omega
  · intro t ht hen
    obtain ⟨hs, hmem⟩ := h3 t ht hen
    unfold cron_task_chunk
    simp [hen, hs, hmem]
  · intro p1 p2 now_str
    rfl

/-- C10, witness: with pre-existing content "PREV\n" and the enabled
scenario task, running the cron generator twice does not reproduce the
single-run file. -/
theorem C10_cron_append_witness :
    run_generate_cron_file
        (run_generate_cron_file "PREV\n" { tasks := some [demoTask] } ["x.py"] true)
        { tasks := some [demoTask] } ["x.py"] true ≠
      run_generate_cron_file "PREV\n" { tasks := some [demoTask] } ["x.py"] true :=
  (C10_cron_append_not_idempotent "PREV\n" { tasks := some [demoTask] }
    ["x.py"] true [demoTask] rfl (by decide) (by decide)).2.2.1

end LiteCron
